import Mathlib

/-!
Verification development for the query-lifecycle and transport-multiplexing
core of a three-party MPC helper node (`raw-ipa`): the query `Processor`
(`src/query/processor.rs`), the transport route parameters
(`src/helpers/transport/mod.rs`) and the secure-multiplication context
(`src/protocol/mul/mod.rs`), shallowly embedded as pure Lean functions.
The registry of running queries is keyed by the singleton `QueryId`, so it
is embedded as an `Option QueryState`; asynchronous operations become pure
functions from the registry (and an environment describing transport and
executor behaviour) to the new registry paired with the operation's result.
-/

namespace RawIpa

/-- Modelled from the spec: `HelperIdentity` (its definition lives in
`src/helpers/mod.rs`, which is not among the sources). A stable opaque name
of one of the three peers (§3). -/
inductive HelperIdentity where
  | one
  | two
  | three
deriving DecidableEq, Repr

/-- Modelled from the spec: `HelperIdentity::others` (not among the
sources). Each helper computes, given itself, its two others as a
deterministic ordered pair `[right, left]` (§3); `Processor::new_query`
destructures it as `let [right, left] = id.others()`. The ring convention
is that `right` is the next identity and `left` the previous one. -/
def HelperIdentity.others : HelperIdentity → HelperIdentity × HelperIdentity
  | .one => (.two, .three)
  | .two => (.three, .one)
  | .three => (.one, .two)

/-- `Role`: one of `{H1, H2, H3}`; `H1` is the coordinator for a query. -/
inductive Role where
  | H1
  | H2
  | H3
deriving DecidableEq, Repr

/-- Modelled from the spec: `RoleAssignment` (not among the sources), a
bijection `HelperIdentity ↔ Role` valid for one query (§3), exposing
`role(identity)` as used by `Processor::prepare`. -/
structure RoleAssignment where
  role : HelperIdentity → Role

/-- Modelled from the spec: `RoleAssignment::try_from([(id, H1), (right, H2),
(left, H3)]).unwrap()` as called in `Processor::new_query` on three distinct
identities: the bijection check succeeds and each listed identity is mapped
to its listed role. -/
def RoleAssignment.fromTriple (i1 i2 _i3 : HelperIdentity) : RoleAssignment :=
  ⟨fun h => if h = i1 then .H1 else if h = i2 then .H2 else .H3⟩

/-- `QueryId`: the unit struct `pub struct QueryId;` — a singleton type. -/
inductive QueryId where
  | queryId
deriving DecidableEq, Repr

/-- Modelled from the spec: `FieldType` (from `src/ff`, not among the
sources); only the two variants exercised by the tests are kept. -/
inductive FieldType where
  | fp31
  | fp32BitPrime
deriving DecidableEq, Repr

/-- Modelled from the spec: `QueryType` (not among the sources); the
protocol-specific parameters of the IPA variant are irrelevant to the
claims and elided. -/
inductive QueryType where
  | testMultiply
  | ipa
deriving DecidableEq, Repr

/-- `QueryConfig`: `{ field_type, query_type }` (§3). -/
structure QueryConfig where
  field_type : FieldType
  query_type : QueryType
deriving DecidableEq, Repr

/-- Modelled from the spec: `Step` (from `src/protocol`, not among the
sources): a hierarchical protocol-location label, a sequence of string
segments (§3). -/
def StepM : Type := List String

instance : DecidableEq StepM := by
  unfold StepM
  infer_instance

/-- Modelled from the spec: `RecordId` (from `src/protocol`, not among the
sources): a monotonically increasing index within a step (§3), embedded as
a natural number. -/
def RecordIdM : Type := Nat

instance : DecidableEq RecordIdM := by
  unfold RecordIdM
  infer_instance

/-- Modelled from the spec: `GatewayConfig` (not among the sources); its
batching parameters are irrelevant to the claims, so only the
`default()` value used by the processor is kept. -/
inductive GatewayConfig where
  | defaultConfig
deriving DecidableEq, Repr

/-- Modelled from the spec: `Gateway` (not among the sources): a per-query
multiplexer constructed from the query id, a gateway config, the role
assignment and the transport handle (§4.3); opaque to the processor
claims, so embedded as a record of its construction arguments, the
transport handle being represented by its identity. -/
structure Gateway where
  queryId : QueryId
  config : GatewayConfig
  roles : RoleAssignment
  transportIdentity : HelperIdentity

/-- Modelled from the spec: `Gateway::new` as called by the processor. -/
def Gateway.new (qid : QueryId) (cfg : GatewayConfig) (roles : RoleAssignment)
    (transportIdentity : HelperIdentity) : Gateway :=
  ⟨qid, cfg, roles, transportIdentity⟩

/-- Modelled from the spec: a protocol error (§7: boxed errors from
`SecureMul` etc., fatal for the query), carried by a failed completion
handle. -/
inductive ProtocolError where
  | boxed (msg : String)
deriving DecidableEq, Repr

/-- Modelled from the spec: a resolved `Box<dyn ProtocolResult>` (§6: the
completion handle resolves to a boxed result producing a canonical byte
serialization), embedded as the serialized bytes. -/
inductive ProtocolResultV where
  | bytes (data : List Nat)
deriving DecidableEq, Repr

/-- Modelled from the spec: the executor's `CompletionHandle<ProtocolResult>`
(`src/query/executor.rs` is not among the sources). Awaiting the handle
yields either the boxed result (§6) or a protocol error (§7: protocol
errors are fatal for the query); the embedding records the value awaiting
the handle resolves to. -/
def CompletionHandle : Type := Except ProtocolError ProtocolResultV

instance {ε α : Type} [DecidableEq ε] [DecidableEq α] : DecidableEq (Except ε α) :=
  fun x y =>
    match x, y with
    | .ok a, .ok b =>
        if h : a = b then .isTrue (by rw [h])
        else .isFalse (by intro hc; cases hc; exact h rfl)
    | .error a, .error b =>
        if h : a = b then .isTrue (by rw [h])
        else .isFalse (by intro hc; cases hc; exact h rfl)
    | .ok _, .error _ => .isFalse (by intro hc; cases hc)
    | .error _, .ok _ => .isFalse (by intro hc; cases hc)

instance : DecidableEq CompletionHandle := by
  unfold CompletionHandle
  infer_instance

/-- `QueryState` (§3): the discriminated variants of a registered query;
`Empty` is implicit (key absent), embedded as `none` at the registry. -/
inductive QueryState where
  | preparing (config : QueryConfig)
  | awaitingInputs (config : QueryConfig) (gateway : Gateway)
  | running (handle : CompletionHandle)
  | awaitingCompletion
  | completed

/-- `QueryStatus`: observable projection of `QueryState` (same variants
minus payloads). -/
inductive QueryStatus where
  | preparing
  | awaitingInputs
  | running
  | awaitingCompletion
  | completed
deriving DecidableEq, Repr

/-- `QueryStatus::from(&QueryState)`. -/
def QueryStatus.fromState : QueryState → QueryStatus
  | .preparing _ => .preparing
  | .awaitingInputs _ _ => .awaitingInputs
  | .running _ => .running
  | .awaitingCompletion => .awaitingCompletion
  | .completed => .completed

/-- Modelled from the spec: `StateError` (from `src/query/state.rs`, not
among the sources): `InvalidState{from, to}` and `AlreadyRunning` (§4.4);
`from` is an `Option` because the `Empty` state is the absent key. -/
inductive StateError where
  | invalidState (fromSt : Option QueryStatus) (toSt : QueryStatus)
  | alreadyRunning
deriving DecidableEq, Repr

/-- Modelled from the spec: an `io::Error`-flavoured transport failure
carrying a kind tag (§4.2). -/
inductive IOError where
  | mk (kind : String)
deriving DecidableEq, Repr

/-- `PrepareQuery`: `{ query_id, config, roles }`, the payload sent
coordinator→followers (§3). -/
structure PrepareQuery where
  query_id : QueryId
  config : QueryConfig
  roles : RoleAssignment

/-- Modelled from the spec: the input stream of a query: a finite sequence
of byte chunks (§3), embedded as a list of byte lists. -/
def InputStream : Type := List (List Nat)

/-- `QueryInput`: `{ query_id, input_stream }` (§3). -/
structure QueryInput where
  query_id : QueryId
  input_stream : InputStream

/-- `NewQueryError` (`src/query/processor.rs`): wraps a `StateError` or a
transport `io::Error` (the oneshot-receive variant is unreachable in the
embedded operations and elided). -/
inductive NewQueryError where
  | state (e : StateError)
  | transport (e : IOError)
deriving DecidableEq, Repr

/-- `PrepareQueryError` (`src/query/processor.rs`). -/
inductive PrepareQueryError where
  | wrongTarget
  | alreadyRunning
  | stateError (source : StateError)
deriving DecidableEq, Repr

/-- `QueryInputError` (`src/query/processor.rs`). -/
inductive QueryInputError where
  | noSuchQuery (id : QueryId)
  | stateError (source : StateError)
deriving DecidableEq, Repr

/-- `QueryCompletionError` (`src/query/processor.rs`). -/
inductive QueryCompletionError where
  | noSuchQuery (id : QueryId)
  | stateError (source : StateError)
deriving DecidableEq, Repr

/-- The registry of running queries. `QueryId` is a singleton, so the
thread-safe map `QueryId → QueryState` behind the processor's lock is an
`Option QueryState`; `none` is the `Empty` state. -/
def Registry : Type := Option QueryState

/-- `Processor::status(query_id)`: the observable projection of the stored
state. -/
def Processor.status (queries : Registry) : Option QueryStatus :=
  queries.map QueryStatus.fromState

/-- Modelled from the spec: `RunningQueries::handle(query_id).set_state`
(`src/query/state.rs` is not among the sources). Legal transitions (§3,
§4.4, §4.5.2): `Empty → Preparing` (the coordinator's entry),
`Empty → AwaitingInputs` (the follower's entry in `prepare`),
`Preparing → AwaitingInputs`, `AwaitingInputs → Running`,
`Running → AwaitingCompletion`, `AwaitingCompletion → Completed`.
Setting `Preparing` over any occupied entry is the `Empty → Preparing`
collision and fails with `AlreadyRunning`; every other illegal transition
fails with `InvalidState{from, to}`. On success the new state is stored;
on failure the registry is untouched. -/
def set_state : Registry → QueryState → Except StateError QueryState
  | none, QueryState.preparing c => .ok (QueryState.preparing c)
  | none, QueryState.awaitingInputs c g => .ok (QueryState.awaitingInputs c g)
  | some (QueryState.preparing _), QueryState.awaitingInputs c g =>
      .ok (QueryState.awaitingInputs c g)
  | some (QueryState.awaitingInputs _ _), QueryState.running h =>
      .ok (QueryState.running h)
  | some (QueryState.running _), QueryState.awaitingCompletion =>
      .ok QueryState.awaitingCompletion
  | some QueryState.awaitingCompletion, QueryState.completed =>
      .ok QueryState.completed
  | some _, QueryState.preparing _ => .error .alreadyRunning
  | cur, newState =>
      .error (.invalidState (cur.map QueryStatus.fromState)
        (QueryStatus.fromState newState))

/-- The environment behaviour of a transport handle: its stable identity
and, for each destination and prepare payload, the outcome of
`Transport::send` of that payload with an empty body. -/
structure TransportModel where
  identity : HelperIdentity
  sendResult : HelperIdentity → PrepareQuery → Except IOError Unit

/-- `futures_util::future::try_join`: both futures are driven; the join
succeeds only when both succeed and otherwise yields the error of the
future that failed first (left-biased in the embedding). -/
def tryJoin {ε α β : Type} : Except ε α → Except ε β → Except ε (α × β)
  | .ok a, .ok b => .ok (a, b)
  | .error e, _ => .error e
  | .ok _, .error e => .error e

/-- `Except.isOk` as a plain definition for use in statements. -/
def exceptOk {ε α : Type} : Except ε α → Bool
  | .ok _ => true
  | .error _ => false

/-- The `PrepareQuery` request built inside `Processor::new_query`:
`query_id = QueryId`, the caller's config, and the role assignment
`[(id, H1), (right, H2), (left, H3)]` where `[right, left] = id.others()`. -/
def Processor.prepareRequest (req : QueryConfig) (t : TransportModel) : PrepareQuery :=
  let id := t.identity
  let right := id.others.1
  let left := id.others.2
  { query_id := QueryId.queryId
    config := req
    roles := RoleAssignment.fromTriple id right left }

/-- `Processor::new_query` (`src/query/processor.rs` lines 116–144):
set the state to `Preparing(req)`, build the role assignment with the
transport's identity as `H1`, `right → H2`, `left → H3`, send the prepare
request to the left and right peers via `try_join`, and on success
construct a gateway and set the state to `AwaitingInputs(req, gateway)`.
Returns the new registry and the call's result. -/
def Processor.new_query (queries : Registry) (req : QueryConfig)
    (t : TransportModel) : Registry × Except NewQueryError PrepareQuery :=
  match set_state queries (QueryState.preparing req) with
  | .error e => (queries, .error (.state e))
  | .ok st1 =>
    match tryJoin
        (t.sendResult t.identity.others.2 (Processor.prepareRequest req t))
        (t.sendResult t.identity.others.1 (Processor.prepareRequest req t)) with
    | .error e => (some st1, .error (.transport e))
    | .ok _ =>
      match set_state (some st1)
          (QueryState.awaitingInputs req
            (Gateway.new QueryId.queryId GatewayConfig.defaultConfig
              (Processor.prepareRequest req t).roles t.identity)) with
      | .error e => (some st1, .error (.state e))
      | .ok st2 => (some st2, .ok (Processor.prepareRequest req t))

/-- `Processor::prepare` (`src/query/processor.rs` lines 155–172, follower
intake): compute this helper's role from `req.roles`; if it is `H1`, fail
`WrongTarget`; if any state is already registered for the query id, fail
`AlreadyRunning`; otherwise construct a gateway and set the state to
`AwaitingInputs(req.config, gateway)`. The helper's own transport identity
stands in for `self.transport`. -/
def Processor.prepare (queries : Registry) (selfIdentity : HelperIdentity)
    (req : PrepareQuery) : Registry × Except PrepareQueryError Unit :=
  let my_role := req.roles.role selfIdentity
  if my_role = Role.H1 then
    (queries, .error .wrongTarget)
  else if (Processor.status queries).isSome then
    (queries, .error .alreadyRunning)
  else
    let gateway := Gateway.new req.query_id GatewayConfig.defaultConfig
      req.roles selfIdentity
    match set_state queries (QueryState.awaitingInputs req.config gateway) with
    | .error e => (queries, .error (.stateError e))
    | .ok st => (some st, .ok ())

/-- The behaviour of the external executor: `executor::start_query(config,
gateway, input_stream)` returns a completion handle (§6). The executor is
an external collaborator, so the embedding passes its behaviour in as a
function. -/
def ExecutorModel : Type := QueryConfig → Gateway → InputStream → CompletionHandle

/-- `Processor::receive_inputs` (`src/query/processor.rs` lines 182–208):
look the query up; if absent, fail `NoSuchQuery`; if the stored state is
`AwaitingInputs(config, gateway)`, replace it with
`Running(start_query(config, gateway, input.input_stream))`; otherwise put
the removed state back and fail `InvalidState{from, to: Running}`. -/
def Processor.receive_inputs (exec : ExecutorModel) (queries : Registry)
    (input : QueryInput) : Registry × Except QueryInputError Unit :=
  match queries with
  | some state =>
    match state with
    | QueryState.awaitingInputs config gateway =>
        (some (QueryState.running (exec config gateway input.input_stream)),
          .ok ())
    | _ =>
        (some state,
          .error (.stateError (.invalidState
            (some (QueryStatus.fromState state)) QueryStatus.running)))
  | none => (none, .error (.noSuchQuery input.query_id))

/-- `Processor::complete` (`src/query/processor.rs` lines 252–279): remove
the entry; if it was `Running(handle)`, store `AwaitingCompletion` and then
return `handle.await.unwrap()` — `unwrap` panics when the awaited handle
yields an error, which the embedding records as `none` in the result
position; any other stored state is put back and the call fails with
`InvalidState{from, to: Running}`; an absent entry fails `NoSuchQuery`. -/
def Processor.complete (queries : Registry) (query_id : QueryId) :
    Registry × Option (Except QueryCompletionError ProtocolResultV) :=
  match queries with
  | some (QueryState.running handle) =>
      (some QueryState.awaitingCompletion,
        match handle with
        | .ok v => some (.ok v)
        | .error _ => none)
  | some state =>
      (some state,
        some (.error (.stateError (.invalidState
          (some (QueryStatus.fromState state)) QueryStatus.running))))
  | none => (none, some (.error (.noSuchQuery query_id)))

/-- One externally driven processor operation, carrying the inputs of the
corresponding `Processor` method. -/
inductive Op where
  | newQueryOp (req : QueryConfig) (t : TransportModel)
  | prepareOp (selfIdentity : HelperIdentity) (req : PrepareQuery)
  | inputOp (exec : ExecutorModel) (input : QueryInput)
  | completeOp (query_id : QueryId)

/-- The registry after one processor operation, whatever its result. -/
def applyOp (queries : Registry) : Op → Registry
  | .newQueryOp req t => (Processor.new_query queries req t).1
  | .prepareOp selfIdentity req => (Processor.prepare queries selfIdentity req).1
  | .inputOp exec input => (Processor.receive_inputs exec queries input).1
  | .completeOp query_id => (Processor.complete queries query_id).1

/-- The registry after a sequence of processor operations. -/
def applyOps (queries : Registry) : List Op → Registry
  | [] => queries
  | op :: rest => applyOps (applyOp queries op) rest

/-- `NoResourceIdentifier` (`src/helpers/transport/mod.rs`): the typed
absence marker for the resource coordinate of a route. -/
inductive NoResourceIdentifier where
  | mk
deriving DecidableEq, Repr

/-- `NoQueryId`: the typed absence marker for the query-id coordinate. -/
inductive NoQueryId where
  | mk
deriving DecidableEq, Repr

/-- `NoStep`: the typed absence marker for the step coordinate. -/
inductive NoStep where
  | mk
deriving DecidableEq, Repr

/-- `RouteId` (`src/helpers/transport/mod.rs`): `Records`, `ReceiveQuery`,
`PrepareQuery`. -/
inductive RouteId where
  | records
  | receiveQuery
  | prepareQuery
deriving DecidableEq, Repr

/-- `impl From<NoQueryId> for Option<QueryId>`: always `None`. -/
def optionQueryIdOfNoQueryId (_ : NoQueryId) : Option QueryId := none

/-- `impl From<NoStep> for Option<Step>`: always `None`. -/
def optionStepOfNoStep (_ : NoStep) : Option StepM := none

/-- `RouteParams<NoResourceIdentifier, QueryId, Step> for (QueryId, Step)`:
`resource_identifier`. -/
def pairResourceIdentifier (_ : QueryId × StepM) : NoResourceIdentifier :=
  NoResourceIdentifier.mk

/-- `(QueryId, Step)` route: `query_id` returns the first component. -/
def pairQueryId (r : QueryId × StepM) : QueryId := r.1

/-- `(QueryId, Step)` route: `step` returns the second component. -/
def pairStep (r : QueryId × StepM) : StepM := r.2

/-- `(QueryId, Step)` route: `extra` returns the empty string. -/
def pairExtra (_ : QueryId × StepM) : String := ""

/-- `RouteParams<RouteId, QueryId, Step> for (RouteId, QueryId, Step)`:
`resource_identifier` returns the first component. -/
def tripleResourceIdentifier (r : RouteId × QueryId × StepM) : RouteId := r.1

/-- `(RouteId, QueryId, Step)` route: `query_id` returns the second
component. -/
def tripleQueryId (r : RouteId × QueryId × StepM) : QueryId := r.2.1

/-- `(RouteId, QueryId, Step)` route: `step` returns the third component. -/
def tripleStep (r : RouteId × QueryId × StepM) : StepM := r.2.2

/-- `(RouteId, QueryId, Step)` route: `extra` returns the empty string. -/
def tripleExtra (_ : RouteId × QueryId × StepM) : String := ""

/-- The kind of the resource coordinate of a route type: either the typed
absence marker `NoResourceIdentifier` or the concrete `RouteId`. -/
inductive ResBinding where
  | noResource
  | routeId
deriving DecidableEq, Repr

/-- The kind of the query-id coordinate: `NoQueryId` or `QueryId`. -/
inductive QueryBinding where
  | noQueryId
  | queryId
deriving DecidableEq, Repr

/-- The kind of the step coordinate: `NoStep` or `Step`. -/
inductive StepKindBinding where
  | noStep
  | step
deriving DecidableEq, Repr

/-- The static shape `(R, Q, S)` of a `RouteParams<R, Q, S>` route type. -/
structure RouteShape where
  res : ResBinding
  q : QueryBinding
  s : StepKindBinding
deriving DecidableEq, Repr

/-- The shape of the `(QueryId, Step)` route instance:
`RouteParams<NoResourceIdentifier, QueryId, Step>`. -/
def pairShape : RouteShape := ⟨.noResource, .queryId, .step⟩

/-- The shape of the `(RouteId, QueryId, Step)` route instance:
`RouteParams<RouteId, QueryId, Step>`. -/
def tripleShape : RouteShape := ⟨.routeId, .queryId, .step⟩

/-- The bound of `Transport::send`: it accepts a route type exactly when
its resource coordinate is the concrete `RouteId`
(`R: RouteParams<RouteId, Q, S>` with `Q`, `S` any bindings). -/
def sendAccepts (sh : RouteShape) : Bool := sh.res == ResBinding.routeId

/-- The bound of `Transport::receive`: it accepts a route type exactly when
it has no resource identifier and concrete query id and step
(`R: RouteParams<NoResourceIdentifier, QueryId, Step>`). -/
def receiveAccepts (sh : RouteShape) : Bool :=
  (sh.res == ResBinding.noResource) && (sh.q == QueryBinding.queryId)
    && (sh.s == StepKindBinding.step)

/-- `Replicated<F>` (semi-honest replicated share): the two additive pieces
this helper holds. -/
structure Replicated (F : Type) where
  left : F
  right : F
deriving DecidableEq, Repr

/-- `MaliciousReplicated<F>`: the plain share `x` and the MAC-multiplied
share `rx`. -/
structure MaliciousReplicated (F : Type) where
  x : Replicated F
  rx : Replicated F
deriving DecidableEq, Repr

/-- A communication direction around the ring. -/
inductive Direction where
  | left
  | right
deriving DecidableEq, Repr

/-- One transport-level event of a multiply: a send to a neighbour or a
receive from one, on the channel `(step, record_id)` of the context's
query. -/
inductive CommEvent where
  | send (dest : Direction) (step : StepM) (rid : RecordIdM)
  | recv (source : Direction) (step : StepM) (rid : RecordIdM)
deriving DecidableEq

/-- Modelled from the spec: the semi-honest protocol context over
replicated shares (`src/protocol/context.rs` is not among the sources):
it carries the inherited step, the shared-randomness terms for each
record id (one shared with each neighbour) and the contribution the left
peer sends for each record id. -/
structure SemiHonestContext (F : Type) where
  step : StepM
  prssLeft : RecordIdM → F
  prssRight : RecordIdM → F
  recvLeft : RecordIdM → F

/-- Modelled from the spec: `SemiHonestMul::execute`
(`src/protocol/mul/semi_honest.rs` is not among the sources). A single
round-trip (§4.6): the party computes a local cross product masked by a
randomness term, sends that contribution to its right peer on the channel
`(step, record_id)`, receives the corresponding contribution from its left
peer, and returns the local-plus-received share. The returned trace records
the one send and the one receive. -/
def semiHonestMulExecute {F : Type} [CommRing F] (ctx : SemiHonestContext F)
    (rid : RecordIdM) (a b : Replicated F) : Replicated F × List CommEvent :=
  let s0 := ctx.prssLeft rid
  let s1 := ctx.prssRight rid
  let right_d := a.left * b.right + a.right * b.left - s0
  let left_d := ctx.recvLeft rid
  (⟨a.left * b.left + left_d + s0, a.right * b.right + right_d + s1⟩,
    [CommEvent.send .right ctx.step rid, CommEvent.recv .left ctx.step rid])

/-- `multiply` of `SecureMul<F> for ProtocolContext<'_, Replicated<F>, F>`
(`src/protocol/mul/mod.rs` lines 31–43): delegates to
`SemiHonestMul::new(self, record_id).execute(a, b)`. -/
def multiplySemiHonest {F : Type} [CommRing F] (ctx : SemiHonestContext F)
    (rid : RecordIdM) (a b : Replicated F) : Replicated F × List CommEvent :=
  semiHonestMulExecute ctx rid a b

/-- Modelled from the spec: the malicious protocol context
(`src/protocol/context.rs` is not among the sources): a base semi-honest
context and the per-context accumulator returned by `self.accumulator()`
(§4.6, §9: a per-context mutable cell shared between all multiply
invocations). -/
structure MaliciousContext (F : Type) where
  base : SemiHonestContext F
  accumulator : F

/-- Modelled from the spec: the accumulator absorbing one MAC term (the
MAC-multiplied product share of a multiply); the exact combining function
of `src/protocol/malicious.rs` is not among the sources and is modelled as
adding both pieces of the share. -/
def accumulateMacTerm {F : Type} [CommRing F] (acc : F) (rz : Replicated F) : F :=
  acc + rz.left + rz.right

/-- Modelled from the spec: `MaliciouslySecureMul::execute`
(`src/protocol/mul/malicious.rs` is not among the sources). It wraps the
semi-honest multiply, calling it twice — once on the plain shares and once
on the MAC-multiplied shares — and updates the accumulator it was handed
with the MAC term of the second product (§4.6). -/
def maliciousMulExecute {F : Type} [CommRing F] (ctx : MaliciousContext F)
    (rid : RecordIdM) (acc : F) (a b : MaliciousReplicated F) :
    MaliciousReplicated F × F × List CommEvent :=
  let z := semiHonestMulExecute ctx.base rid a.x b.x
  let rz := semiHonestMulExecute ctx.base rid a.rx b.x
  (⟨z.1, rz.1⟩, accumulateMacTerm acc rz.1, z.2 ++ rz.2)

/-- `multiply` of `SecureMul<F> for ProtocolContext<'_,
MaliciousReplicated<F>, F>` (`src/protocol/mul/mod.rs` lines 45–61): reads
`self.accumulator()` and delegates to
`MaliciouslySecureMul::new(self, record_id, acc).execute(a, b)`. -/
def multiplyMalicious {F : Type} [CommRing F] (ctx : MaliciousContext F)
    (rid : RecordIdM) (a b : MaliciousReplicated F) :
    MaliciousReplicated F × F × List CommEvent :=
  let acc := ctx.accumulator
  maliciousMulExecute ctx rid acc a b

/-! ### Concrete fixtures used by the witness theorems -/

/-- A sample query config (`Fp31`, `TestMultiply`). -/
def cfg0 : QueryConfig := ⟨FieldType.fp31, QueryType.testMultiply⟩

/-- A second sample query config. -/
def cfg1 : QueryConfig := ⟨FieldType.fp32BitPrime, QueryType.ipa⟩

/-- A transport handle of helper one whose every send succeeds. -/
def tOk : TransportModel := ⟨HelperIdentity.one, fun _ _ => .ok ()⟩

/-- A transport handle of helper one whose every send fails. -/
def tFail : TransportModel :=
  ⟨HelperIdentity.one, fun _ _ => .error (IOError.mk "send failed")⟩

/-- A sample executor behaviour. -/
def exec0 : ExecutorModel := fun _ _ _ => .ok (ProtocolResultV.bytes [7])

/-- A sample role assignment: helpers one, two, three as H1, H2, H3. -/
def roles0 : RoleAssignment :=
  RoleAssignment.fromTriple HelperIdentity.one HelperIdentity.two HelperIdentity.three

/-- A sample gateway. -/
def gw0 : Gateway :=
  Gateway.new QueryId.queryId GatewayConfig.defaultConfig roles0 HelperIdentity.two

/-- A sample prepare request. -/
def req0 : PrepareQuery := ⟨QueryId.queryId, cfg0, roles0⟩

/-! ### Helper lemmas -/

/-- The two others of a helper are distinct from it and from each other. -/
theorem others_distinct (i : HelperIdentity) :
    i.others.1 ≠ i ∧ i.others.2 ≠ i ∧ i.others.1 ≠ i.others.2 := by
  cases i <;> refine ⟨?_, ?_, ?_⟩ <;> decide

/-- `RoleAssignment.fromTriple` maps three distinct identities to the three
roles in order. -/
theorem fromTriple_roles (i1 i2 i3 : HelperIdentity)
    (h12 : i2 ≠ i1) (h13 : i3 ≠ i1) (h23 : i3 ≠ i2) :
    (RoleAssignment.fromTriple i1 i2 i3).role i1 = Role.H1 ∧
    (RoleAssignment.fromTriple i1 i2 i3).role i2 = Role.H2 ∧
    (RoleAssignment.fromTriple i1 i2 i3).role i3 = Role.H3 := by
  refine ⟨?_, ?_, ?_⟩ <;> simp [RoleAssignment.fromTriple, h12, h13, h23]

/-- Setting `Preparing` succeeds only from the empty state and stores
`Preparing`. -/
theorem set_state_preparing_ok (reg : Registry) (c : QueryConfig)
    (st : QueryState) (h : set_state reg (QueryState.preparing c) = .ok st) :
    reg = none ∧ st = QueryState.preparing c := by
  cases reg with
  | none =>
      refine ⟨rfl, ?_⟩
      simpa [set_state] using h.symm
  | some s => cases s <;> simp [set_state] at h

/-- Setting `Preparing` over any occupied entry fails with
`AlreadyRunning`. -/
theorem set_state_preparing_occupied (s : QueryState) (c : QueryConfig) :
    set_state (some s) (QueryState.preparing c) = .error .alreadyRunning := by
  cases s <;> rfl

/-- The registry after `new_query` from the empty state is `Preparing` or
`AwaitingInputs`, holding the requested config. -/
theorem new_query_registry_shape (req : QueryConfig) (t : TransportModel) :
    (Processor.new_query none req t).1 = some (QueryState.preparing req) ∨
    ∃ g, (Processor.new_query none req t).1 =
      some (QueryState.awaitingInputs req g) := by
  cases hj : tryJoin
      (t.sendResult t.identity.others.2 (Processor.prepareRequest req t))
      (t.sendResult t.identity.others.1 (Processor.prepareRequest req t)) with
  | error e => left; simp [Processor.new_query, set_state, hj]
  | ok u =>
      right
      exact ⟨Gateway.new QueryId.queryId GatewayConfig.defaultConfig
        (Processor.prepareRequest req t).roles t.identity,
        by simp [Processor.new_query, set_state, hj]⟩

/-! ### C1 — `new_query` role assignment and resulting status -/

/-- C1: whenever `new_query` returns successfully, it returns
`PrepareQuery{query_id, config, roles}` in which the transport's identity
is assigned `H1` and, with `[right, left] = identity.others()`, `right` is
assigned `H2` and `left` is assigned `H3`; afterwards
`status(query_id) = AwaitingInputs`. -/
theorem new_query_ok_roles_and_status (reg : Registry) (req : QueryConfig)
    (t : TransportModel) (pq : PrepareQuery)
    (h : (Processor.new_query reg req t).2 = .ok pq) :
    pq.query_id = QueryId.queryId ∧ pq.config = req ∧
    pq.roles.role t.identity = Role.H1 ∧
    pq.roles.role t.identity.others.1 = Role.H2 ∧
    pq.roles.role t.identity.others.2 = Role.H3 ∧
    Processor.status (Processor.new_query reg req t).1 =
      some QueryStatus.awaitingInputs := by
  obtain ⟨hr, hi, hlr⟩ := others_distinct t.identity
  obtain ⟨q1, q2, q3⟩ := fromTriple_roles t.identity t.identity.others.1
    t.identity.others.2 hr hi hlr.symm
  rcases reg with _ | s
  · cases hj : tryJoin
        (t.sendResult t.identity.others.2 (Processor.prepareRequest req t))
        (t.sendResult t.identity.others.1 (Processor.prepareRequest req t)) with
    | error e =>
        exfalso
        simp [Processor.new_query, set_state, hj] at h
    | ok u =>
        simp only [Processor.new_query, set_state, hj] at h ⊢
        have hpq : Processor.prepareRequest req t = pq := by simpa using h
        subst hpq
        exact ⟨trivial, rfl, q1, q2, q3,
          by simp [Processor.status, QueryStatus.fromState]⟩
  · exfalso
    simp [Processor.new_query, set_state_preparing_occupied s req] at h

/-- C1 witness: a concrete successful `new_query` on helper one. -/
theorem new_query_ok_roles_and_status_witness :
    (Processor.prepareRequest cfg0 tOk).query_id = QueryId.queryId ∧
    (Processor.prepareRequest cfg0 tOk).config = cfg0 ∧
    (Processor.prepareRequest cfg0 tOk).roles.role tOk.identity = Role.H1 ∧
    (Processor.prepareRequest cfg0 tOk).roles.role tOk.identity.others.1 = Role.H2 ∧
    (Processor.prepareRequest cfg0 tOk).roles.role tOk.identity.others.2 = Role.H3 ∧
    Processor.status (Processor.new_query none cfg0 tOk).1 =
      some QueryStatus.awaitingInputs :=
  new_query_ok_roles_and_status none cfg0 tOk (Processor.prepareRequest cfg0 tOk) rfl

/-! ### C2 — `complete` -/

/-- C2: `complete` requires the stored state to be `Running(handle)`: it
then stores `AwaitingCompletion` and, when the handle resolves to a value,
returns that value; an absent entry fails `NoSuchQuery`; any other state is
restored unchanged and fails `InvalidState{from, to: Running}`. -/
theorem complete_spec (queries : Registry) (qid : QueryId) :
    (∀ h, queries = some (QueryState.running h) →
      (Processor.complete queries qid).1 = some QueryState.awaitingCompletion ∧
      ∀ v, h = .ok v →
        (Processor.complete queries qid).2 = some (.ok v)) ∧
    (queries = none →
      Processor.complete queries qid =
        (none, some (.error (.noSuchQuery qid)))) ∧
    (∀ s, queries = some s → (∀ h, s ≠ QueryState.running h) →
      Processor.complete queries qid =
        (some s, some (.error (.stateError (.invalidState
          (some (QueryStatus.fromState s)) QueryStatus.running))))) := by
  refine ⟨?_, ?_, ?_⟩
  · rintro h rfl
    refine ⟨rfl, ?_⟩
    rintro v rfl
    rfl
  · rintro rfl
    rfl
  · rintro s rfl hnr
    cases s with
    | running h => exact absurd rfl (hnr h)
    | preparing c => rfl
    | awaitingInputs c g => rfl
    | awaitingCompletion => rfl
    | completed => rfl

/-- C2 witness: completing a concrete running query returns the handle's
value and stores `AwaitingCompletion`. -/
theorem complete_spec_witness :
    (Processor.complete
        (some (QueryState.running (.ok (ProtocolResultV.bytes [2, 3]))))
        QueryId.queryId).1 = some QueryState.awaitingCompletion ∧
    (Processor.complete
        (some (QueryState.running (.ok (ProtocolResultV.bytes [2, 3]))))
        QueryId.queryId).2 = some (.ok (ProtocolResultV.bytes [2, 3])) :=
  ⟨((complete_spec (some (QueryState.running (.ok (ProtocolResultV.bytes [2, 3]))))
      QueryId.queryId).1 _ rfl).1,
    ((complete_spec (some (QueryState.running (.ok (ProtocolResultV.bytes [2, 3]))))
      QueryId.queryId).1 _ rfl).2 _ rfl⟩

/-! ### C3 — `prepare` -/

/-- C3: `prepare` fails with `WrongTarget` when the request's role
assignment gives this helper `H1`, leaving the registry untouched; it
fails with `AlreadyRunning` when any state is registered for the query id;
otherwise it constructs a gateway and transitions the query from `Empty`
to `AwaitingInputs(req.config, gateway)`. -/
theorem prepare_spec (queries : Registry) (selfIdentity : HelperIdentity)
    (req : PrepareQuery) :
    (req.roles.role selfIdentity = Role.H1 →
      Processor.prepare queries selfIdentity req =
        (queries, .error .wrongTarget)) ∧
    (req.roles.role selfIdentity ≠ Role.H1 → queries.isSome →
      Processor.prepare queries selfIdentity req =
        (queries, .error .alreadyRunning)) ∧
    (req.roles.role selfIdentity ≠ Role.H1 → queries = none →
      Processor.prepare queries selfIdentity req =
        (some (QueryState.awaitingInputs req.config
          (Gateway.new req.query_id GatewayConfig.defaultConfig req.roles
            selfIdentity)), .ok ())) := by
  refine ⟨?_, ?_, ?_⟩
  · intro h1
    simp [Processor.prepare, h1]
  · intro h1 hsome
    rcases queries with _ | s
    · simp at hsome
    · simp [Processor.prepare, h1, Processor.status]
  · rintro h1 rfl
    simp [Processor.prepare, h1, Processor.status, set_state]

/-- C3 witness: helper two accepts a concrete prepare request from the
empty state; the same request to helper one (assigned `H1`) fails with
`WrongTarget`. -/
theorem prepare_spec_witness :
    Processor.prepare none HelperIdentity.two req0 =
      (some (QueryState.awaitingInputs req0.config
        (Gateway.new req0.query_id GatewayConfig.defaultConfig req0.roles
          HelperIdentity.two)), .ok ()) ∧
    Processor.prepare (some QueryState.awaitingCompletion) HelperIdentity.one req0 =
      (some QueryState.awaitingCompletion, .error .wrongTarget) :=
  ⟨(prepare_spec none HelperIdentity.two req0).2.2 (by decide) rfl,
    (prepare_spec (some QueryState.awaitingCompletion) HelperIdentity.one req0).1
      (by decide)⟩

/-! ### C4 — `receive_inputs` -/

/-- C4: `receive_inputs` fails with `NoSuchQuery` when the query id is not
registered; when the registered state is not `AwaitingInputs` it fails
with `InvalidState` and the prior state is restored; when the state is
`AwaitingInputs(config, gateway)` it hands `(config, gateway,
input_stream)` to the executor and sets the state to `Running`, so the
status is `Running` afterwards. -/
theorem receive_inputs_spec (exec : ExecutorModel) (queries : Registry)
    (input : QueryInput) :
    (queries = none →
      Processor.receive_inputs exec queries input =
        (none, .error (.noSuchQuery input.query_id))) ∧
    (∀ s, queries = some s → (∀ c g, s ≠ QueryState.awaitingInputs c g) →
      Processor.receive_inputs exec queries input =
        (some s, .error (.stateError (.invalidState
          (some (QueryStatus.fromState s)) QueryStatus.running)))) ∧
    (∀ c g, queries = some (QueryState.awaitingInputs c g) →
      Processor.receive_inputs exec queries input =
        (some (QueryState.running (exec c g input.input_stream)), .ok ()) ∧
      Processor.status (Processor.receive_inputs exec queries input).1 =
        some QueryStatus.running) := by
  refine ⟨?_, ?_, ?_⟩
  · rintro rfl
    rfl
  · rintro s rfl hna
    cases s with
    | awaitingInputs c g => exact absurd rfl (hna c g)
    | preparing c => rfl
    | running h => rfl
    | awaitingCompletion => rfl
    | completed => rfl
  · rintro c g rfl
    exact ⟨rfl, rfl⟩

/-- C4 witness: concrete inputs received in the `AwaitingInputs` state
start the executor; a `Preparing` query rejects them with
`InvalidState`. -/
theorem receive_inputs_spec_witness :
    Processor.receive_inputs exec0
        (some (QueryState.awaitingInputs cfg0 gw0)) ⟨QueryId.queryId, []⟩ =
      (some (QueryState.running (exec0 cfg0 gw0 [])), .ok ()) ∧
    Processor.receive_inputs exec0 (some (QueryState.preparing cfg0))
        ⟨QueryId.queryId, []⟩ =
      (some (QueryState.preparing cfg0),
        .error (.stateError (.invalidState (some QueryStatus.preparing)
          QueryStatus.running))) :=
  ⟨((receive_inputs_spec exec0 (some (QueryState.awaitingInputs cfg0 gw0))
      ⟨QueryId.queryId, []⟩).2.2 cfg0 gw0 rfl).1,
    (receive_inputs_spec exec0 (some (QueryState.preparing cfg0))
      ⟨QueryId.queryId, []⟩).2.1 (QueryState.preparing cfg0) rfl
      (by intro c g hc; cases hc)⟩

/-! ### C5 — `new_query` transport failure handling -/

/-- C5: in `new_query`, the prepare request is sent to both the left and
the right peer, neither send being conditioned on the other's outcome, and
both must succeed before the query advances: if the left send fails — or
the left send succeeds and the right send fails — `new_query` returns
`NewQueryError::Transport` and the stored state remains `Preparing`; a
successful return implies both sends succeeded. -/
theorem new_query_transport_spec (req : QueryConfig) (t : TransportModel) :
    (∀ e, t.sendResult t.identity.others.2 (Processor.prepareRequest req t) =
        .error e →
      Processor.new_query none req t =
        (some (QueryState.preparing req), .error (.transport e))) ∧
    (∀ e, t.sendResult t.identity.others.2 (Processor.prepareRequest req t) =
        .ok () →
      t.sendResult t.identity.others.1 (Processor.prepareRequest req t) =
        .error e →
      Processor.new_query none req t =
        (some (QueryState.preparing req), .error (.transport e))) ∧
    (exceptOk (Processor.new_query none req t).2 = true →
      exceptOk (t.sendResult t.identity.others.2
        (Processor.prepareRequest req t)) = true ∧
      exceptOk (t.sendResult t.identity.others.1
        (Processor.prepareRequest req t)) = true) := by
  refine ⟨?_, ?_, ?_⟩
  · intro e hL
    simp [Processor.new_query, set_state, tryJoin, hL]
  · intro e hL hR
    simp [Processor.new_query, set_state, tryJoin, hL, hR]
  · intro hok
    cases hL : t.sendResult t.identity.others.2 (Processor.prepareRequest req t) with
    | error e =>
        exfalso
        simp [Processor.new_query, set_state, tryJoin, hL, exceptOk] at hok
    | ok uL =>
        cases hR : t.sendResult t.identity.others.1
            (Processor.prepareRequest req t) with
        | error e =>
            exfalso
            simp [Processor.new_query, set_state, tryJoin, hL, hR, exceptOk] at hok
        | ok uR => exact ⟨rfl, rfl⟩

/-- C5 witness: with a transport whose sends fail, `new_query` returns a
transport error and the state stays `Preparing`. -/
theorem new_query_transport_spec_witness :
    Processor.new_query none cfg0 tFail =
      (some (QueryState.preparing cfg0),
        .error (.transport (IOError.mk "send failed"))) :=
  (new_query_transport_spec cfg0 tFail).1 (IOError.mk "send failed") rfl

/-! ### C6 — `complete` on a protocol error -/

/-- C6: evaluating `complete` at a query whose completion handle resolved
to a protocol error: `handle.await.unwrap()` panics (the `none` result)
instead of returning an error-carrying `complete`, although the state has
already moved to `AwaitingCompletion`. -/
theorem complete_panics_on_protocol_error :
    Processor.complete
        (some (QueryState.running (.error (ProtocolError.boxed "mul failed"))))
        QueryId.queryId =
      (some QueryState.awaitingCompletion, none) := rfl

/-! ### C7 — second `new_query` fails with `AlreadyRunning` -/

/-- C7: a `new_query` call made while any state is registered fails with
`StateError::AlreadyRunning` and leaves the registry unchanged; when two
`new_query` calls are serialized by the registry lock and the transport
sends succeed, the first succeeds and the second fails with
`AlreadyRunning`. -/
theorem new_query_already_running_spec :
    (∀ (s : QueryState) (req : QueryConfig) (t : TransportModel),
      Processor.new_query (some s) req t =
        (some s, .error (.state .alreadyRunning))) ∧
    (∀ (req1 req2 : QueryConfig) (t : TransportModel),
      (∀ d pq, t.sendResult d pq = .ok ()) →
      exceptOk (Processor.new_query none req1 t).2 = true ∧
      (Processor.new_query (Processor.new_query none req1 t).1 req2 t).2 =
        .error (.state .alreadyRunning)) := by
  have occupied : ∀ (s : QueryState) (req : QueryConfig) (t : TransportModel),
      Processor.new_query (some s) req t =
        (some s, .error (.state .alreadyRunning)) := by
    intro s req t
    simp [Processor.new_query, set_state_preparing_occupied s req]
  refine ⟨occupied, ?_⟩
  intro req1 req2 t hsend
  have hfirst : exceptOk (Processor.new_query none req1 t).2 = true := by
    simp [Processor.new_query, set_state, tryJoin, hsend, exceptOk]
  refine ⟨hfirst, ?_⟩
  rcases new_query_registry_shape req1 t with hshape | ⟨g, hshape⟩ <;>
    rw [hshape, occupied]

/-- C7 witness: on the all-sends-succeed transport, the first `new_query`
succeeds and the immediately following one fails with `AlreadyRunning`. -/
theorem new_query_already_running_spec_witness :
    exceptOk (Processor.new_query none cfg0 tOk).2 = true ∧
    (Processor.new_query (Processor.new_query none cfg0 tOk).1 cfg1 tOk).2 =
      .error (.state .alreadyRunning) :=
  new_query_already_running_spec.2 cfg0 cfg1 tOk (fun _ _ => rfl)

/-! ### C8 — secure multiplication contexts -/

/-- C8: `multiply` on a semi-honest replicated-share context performs the
semi-honest secure multiplication — a single round-trip for the given
record id (one send to the right peer and one receive from the left peer
on `(step, record_id)`); `multiply` on a malicious replicated-share
context wraps the semi-honest multiply, calling it on the plain shares and
on the MAC-multiplied shares and passing the context's per-context
accumulator, so that each call additionally updates that accumulator with
a MAC term. -/
theorem multiply_contexts_spec {F : Type} [CommRing F]
    (ctx : SemiHonestContext F) (mctx : MaliciousContext F) (rid : RecordIdM)
    (a b : Replicated F) (ma mb : MaliciousReplicated F) :
    multiplySemiHonest ctx rid a b = semiHonestMulExecute ctx rid a b ∧
    (multiplySemiHonest ctx rid a b).2 =
      [CommEvent.send .right ctx.step rid, CommEvent.recv .left ctx.step rid] ∧
    (multiplyMalicious mctx rid ma mb).1 =
      ⟨(semiHonestMulExecute mctx.base rid ma.x mb.x).1,
        (semiHonestMulExecute mctx.base rid ma.rx mb.x).1⟩ ∧
    (multiplyMalicious mctx rid ma mb).2.1 =
      accumulateMacTerm mctx.accumulator
        (semiHonestMulExecute mctx.base rid ma.rx mb.x).1 ∧
    (multiplyMalicious mctx rid ma mb).2.2 =
      (semiHonestMulExecute mctx.base rid ma.x mb.x).2 ++
        (semiHonestMulExecute mctx.base rid ma.rx mb.x).2 :=
  ⟨rfl, rfl, rfl, rfl, rfl⟩

/-! ### C9 — route keys and typed absence -/

/-- C9: converting `NoQueryId` (resp. `NoStep`) to an optional query id
(resp. step) yields `None`; for the `(QueryId, Step)` and `(RouteId,
QueryId, Step)` route tuples, the projections return the corresponding
tuple components (with the absent resource marker for the pair) and
`extra()` returns the empty string; `send` accepts exactly the route
shapes whose resource identifier is a `RouteId`, and `receive` exactly
those with no resource identifier and concrete `QueryId` and `Step`. -/
theorem route_params_spec :
    (∀ x : NoQueryId, optionQueryIdOfNoQueryId x = none) ∧
    (∀ x : NoStep, optionStepOfNoStep x = none) ∧
    (∀ r : QueryId × StepM,
      pairResourceIdentifier r = NoResourceIdentifier.mk ∧
      pairQueryId r = r.1 ∧ pairStep r = r.2 ∧ pairExtra r = "") ∧
    (∀ r : RouteId × QueryId × StepM,
      tripleResourceIdentifier r = r.1 ∧ tripleQueryId r = r.2.1 ∧
      tripleStep r = r.2.2 ∧ tripleExtra r = "") ∧
    sendAccepts tripleShape = true ∧ sendAccepts pairShape = false ∧
    receiveAccepts pairShape = true ∧ receiveAccepts tripleShape = false :=
  ⟨fun _ => rfl, fun _ => rfl,
    fun _ => ⟨rfl, rfl, rfl, rfl⟩,
    fun _ => ⟨rfl, rfl, rfl, rfl⟩,
    rfl, rfl, rfl, rfl⟩

/-! ### C10 — a processor serves at most one query -/

/-- C10: all calls address the single `QueryId` value (the type is a
singleton); no operation ever removes a registry entry or stores
`Completed`; once the state is `AwaitingCompletion` it stays
`AwaitingCompletion` under any sequence of operations; and `new_query`
fails on any occupied registry, so no further query can be created. -/
theorem single_query_lifetime_spec :
    (∀ a b : QueryId, a = b) ∧
    (∀ (queries : Registry) (op : Op),
      applyOp queries op = none → queries = none) ∧
    (∀ (queries : Registry) (op : Op),
      applyOp queries op = some QueryState.completed →
        queries = some QueryState.completed) ∧
    (∀ ops : List Op,
      applyOps (some QueryState.awaitingCompletion) ops =
        some QueryState.awaitingCompletion) ∧
    (∀ (s : QueryState) (req : QueryConfig) (t : TransportModel),
      (Processor.new_query (some s) req t).2 =
        .error (.state .alreadyRunning)) := by
  have occupied : ∀ (s : QueryState) (req : QueryConfig) (t : TransportModel),
      Processor.new_query (some s) req t =
        (some s, .error (.state .alreadyRunning)) := by
    intro s req t
    simp [Processor.new_query, set_state_preparing_occupied s req]
  have prep_occupied : ∀ (s : QueryState) (i : HelperIdentity)
      (r : PrepareQuery), (Processor.prepare (some s) i r).1 = some s := by
    intro s i r
    by_cases h1 : r.roles.role i = Role.H1
    · simp [Processor.prepare, h1]
    · simp [Processor.prepare, h1, Processor.status]
  have step_awaiting : ∀ op : Op,
      applyOp (some QueryState.awaitingCompletion) op =
        some QueryState.awaitingCompletion := by
    intro op
    cases op with
    | newQueryOp req t => simp [applyOp, occupied]
    | prepareOp i r => simp [applyOp, prep_occupied]
    | inputOp exec input => rfl
    | completeOp qid => rfl
  refine ⟨?_, ?_, ?_, ?_, ?_⟩
  · intro a b
    cases a
    cases b
    rfl
  · intro queries op h
    rcases queries with _ | s
    · rfl
    · exfalso
      cases op with
      | newQueryOp req t => rw [applyOp, occupied] at h; cases h
      | prepareOp i r => rw [applyOp, prep_occupied] at h; cases h
      | inputOp exec input =>
          cases s <;> simp [applyOp, Processor.receive_inputs] at h
      | completeOp qid =>
          cases s <;> simp [applyOp, Processor.complete] at h
  · intro queries op h
    rcases queries with _ | s
    · exfalso
      cases op with
      | newQueryOp req t =>
          rcases new_query_registry_shape req t with hs | ⟨g, hs⟩ <;>
            rw [applyOp, hs] at h <;> cases h
      | prepareOp i r =>
          by_cases h1 : r.roles.role i = Role.H1
          · simp [applyOp, Processor.prepare, h1] at h
          · simp only [applyOp, Processor.prepare, h1, Processor.status,
              set_state] at h
            injection h with h2
            exact QueryState.noConfusion h2
      | inputOp exec input => simp [applyOp, Processor.receive_inputs] at h
      | completeOp qid => simp [applyOp, Processor.complete] at h
    · cases op with
      | newQueryOp req t => rw [applyOp, occupied] at h; simpa using h
      | prepareOp i r => rw [applyOp, prep_occupied] at h; exact h
      | inputOp exec input =>
          cases s with
          | awaitingInputs c g =>
              exfalso
              simp only [applyOp, Processor.receive_inputs] at h
              injection h with h2
              exact QueryState.noConfusion h2
          | preparing c => simpa [applyOp, Processor.receive_inputs] using h
          | running hd => exact h
          | awaitingCompletion =>
              simpa [applyOp, Processor.receive_inputs] using h
          | completed => exact h
      | completeOp qid =>
          cases s with
          | running hd =>
              exfalso
              simp only [applyOp, Processor.complete] at h
              injection h with h2
              exact QueryState.noConfusion h2
          | preparing c => simpa [applyOp, Processor.complete] using h
          | awaitingInputs c g => simpa [applyOp, Processor.complete] using h
          | awaitingCompletion => exact h
          | completed => exact h
  · intro ops
    induction ops with
    | nil => rfl
    | cons op rest ih => rw [applyOps, step_awaiting]; exact ih
  · intro s req t
    rw [occupied]

/-- C10 witness: a `complete` on the empty registry leaves it empty, and a
concrete operation sequence leaves an `AwaitingCompletion` query in that
status. -/
theorem single_query_lifetime_spec_witness :
    (none : Registry) = none ∧
    applyOps (some QueryState.awaitingCompletion)
      [Op.completeOp QueryId.queryId, Op.newQueryOp cfg0 tOk,
        Op.inputOp exec0 ⟨QueryId.queryId, []⟩] =
      some QueryState.awaitingCompletion :=
  ⟨single_query_lifetime_spec.2.1 none (Op.completeOp QueryId.queryId) rfl,
    single_query_lifetime_spec.2.2.2.1
      [Op.completeOp QueryId.queryId, Op.newQueryOp cfg0 tOk,
        Op.inputOp exec0 ⟨QueryId.queryId, []⟩]⟩

end RawIpa
